import Mathlib

/-!
Verification of the transcription script `src/transcript.py`.

The script glues the whisper ASR library to a Gradio UI. We shallowly embed
the two pieces of the script that hold behaviour of its own:

* the `transcribe` handler (load audio, pad or trim, log-Mel spectrogram,
  language detection, decoding, with two separate `try/except` blocks), and
* the startup model loader (`whisper.load_model` inside `try/except`, with
  `exit()` on failure).

Every library call is modelled as a function-valued parameter that either
returns a value or raises a Python exception; an exception with message `e`
(Python's `str(e)`) is `Except.error e`.  `transcribe` additionally returns
the list of library calls it performed, in order, so that statements about
which steps run, and with which arguments, can be proved.
-/

/-- Audio sample buffer: the array returned by `whisper.load_audio`
(16 kHz mono samples), abstracted to its payload. -/
abbrev AudioBuf := List Int

/-- Log-Mel spectrogram tensor, abstracted to its payload. -/
abbrev MelSpec := List Int

/-- The loaded whisper model handle; `device` models the `model.device`
attribute read by the script (the model is loaded with `device="cpu"`). -/
structure Model where
  device : String
deriving DecidableEq

/-- `whisper.DecodingOptions(fp16=False, language=detected_language)`:
only the two fields the script sets are modelled. -/
structure DecodingOptions where
  fp16 : Bool
  language : String
deriving DecidableEq

/-- The result of `whisper.decode`; the script only reads its `.text` field. -/
structure DecodingResult where
  text : String
deriving DecidableEq

/-- The whisper library surface used by `transcribe`.  Each field is the
library function the script calls, as a deterministic function that may
raise (`Except.error e` = a Python exception with message `e`).
`log_mel_spectrogram` takes the device string as second argument, modelling
the composed expression `whisper.log_mel_spectrogram(audio).to(model.device)`
of the source; `detect_language` returns the pair `(language_tokens, probs)`
of which the script discards the first component, with the probability dict
modelled as its (key, value) pairs in insertion order. -/
structure WhisperEnv where
  load_audio : String → Except String AudioBuf
  pad_or_trim : AudioBuf → Except String AudioBuf
  log_mel_spectrogram : AudioBuf → String → Except String MelSpec
  detect_language : Model → MelSpec → Except String (Nat × List (String × ℚ))
  decode : Model → MelSpec → DecodingOptions → Except String DecodingResult

/-- Helper for Python's builtin `max` with a key function over the pairs of a
dict in insertion order: a later element replaces the current best only when
its value is strictly greater, so ties keep the earliest key. -/
def pyMaxAux (bestK : String) (bestV : ℚ) : List (String × ℚ) → String
  | [] => bestK
  | (k, v) :: rest => if bestV < v then pyMaxAux k v rest else pyMaxAux bestK bestV rest

/-- `max(probs, key=probs.get)` from the source: iterating a dict yields its
keys in insertion order and the key function looks the value up; on an empty
dict Python's `max` raises a ValueError. -/
def pyMax : List (String × ℚ) → Except String String
  | [] => Except.error "max() arg is an empty sequence"
  | (k, v) :: rest => Except.ok (pyMaxAux k v rest)

/-- One library call made by `transcribe`, with its arguments. -/
inductive Event where
  | loadAudio (fp : String)
  | padOrTrim (a : AudioBuf)
  | logMel (a : AudioBuf)
  | detectLanguage (m : MelSpec)
  | decodeCall (m : MelSpec) (opts : DecodingOptions)
deriving DecidableEq

/-- The `transcribe(audio_filepath)` handler of `src/transcript.py`, paired
with the list of library calls it performed, in order.  `Except.ok s` is a
normal return of the string `s`; `Except.error e` is a Python exception that
propagates out of the handler to its caller.  Faithful to the source, the
first `try/except` surrounds exactly `load_audio` and `pad_or_trim`
(message `"Error processing audio file: {e}"`), the second surrounds exactly
`whisper.decode` (message `"Error during decoding: {e}"`); the spectrogram
computation, `detect_language` and the `max` call stand outside both blocks.
The two `print` calls of the body are logging only and do not touch the
returned value, so they are not modelled. -/
def transcribe (env : WhisperEnv) (model : Model) (audio_filepath : Option String) :
    Except String String × List Event :=
  match audio_filepath with
  | none => (Except.ok "Please provide audio input.", [])
  | some fp =>
    match env.load_audio fp with
    | Except.error e =>
        (Except.ok ("Error processing audio file: " ++ e), [Event.loadAudio fp])
    | Except.ok audio0 =>
      match env.pad_or_trim audio0 with
      | Except.error e =>
          (Except.ok ("Error processing audio file: " ++ e),
           [Event.loadAudio fp, Event.padOrTrim audio0])
      | Except.ok audio =>
        match env.log_mel_spectrogram audio model.device with
        | Except.error e =>
            (Except.error e,
             [Event.loadAudio fp, Event.padOrTrim audio0, Event.logMel audio])
        | Except.ok mel =>
          match env.detect_language model mel with
          | Except.error e =>
              (Except.error e,
               [Event.loadAudio fp, Event.padOrTrim audio0, Event.logMel audio,
                Event.detectLanguage mel])
          | Except.ok (_, probs) =>
            match pyMax probs with
            | Except.error e =>
                (Except.error e,
                 [Event.loadAudio fp, Event.padOrTrim audio0, Event.logMel audio,
                  Event.detectLanguage mel])
            | Except.ok detected_language =>
              match env.decode model mel { fp16 := false, language := detected_language } with
              | Except.error e =>
                  (Except.ok ("Error during decoding: " ++ e),
                   [Event.loadAudio fp, Event.padOrTrim audio0, Event.logMel audio,
                    Event.detectLanguage mel,
                    Event.decodeCall mel { fp16 := false, language := detected_language }])
              | Except.ok result =>
                  (Except.ok result.text,
                   [Event.loadAudio fp, Event.padOrTrim audio0, Event.logMel audio,
                    Event.detectLanguage mel,
                    Event.decodeCall mel { fp16 := false, language := detected_language }])

/-- The hardcoded model-size string of the script. -/
def WHISPER_MODEL_SIZE : String := "tiny"

/-- Outcome of the module-level startup code: either the process is running
with a loaded model (and the lines it printed), or it called `exit()`
(after printing the lines). -/
inductive StartupOutcome where
  | running (m : Model) (log : List String)
  | exited (log : List String)
deriving DecidableEq

/-- The model available for serving requests in a startup outcome: `none`
when the process exited before a model was bound. -/
def servedModel : StartupOutcome → Option Model
  | StartupOutcome.running m _ => some m
  | StartupOutcome.exited _ => none

/-- The module-level startup of `src/transcript.py`: one call
`whisper.load_model(WHISPER_MODEL_SIZE, device="cpu")` inside `try/except`;
on success the handle is bound and a success line printed, on exception two
error lines are printed and `exit()` is called.  The second component
records every `load_model` invocation made, as its (size, device) argument
pair, in order. -/
def startup (load_model : String → String → Except String Model) :
    StartupOutcome × List (String × String) :=
  match load_model WHISPER_MODEL_SIZE "cpu" with
  | Except.ok m =>
      (StartupOutcome.running m
        ["Whisper model '" ++ WHISPER_MODEL_SIZE ++ "' loaded successfully on CPU."],
       [(WHISPER_MODEL_SIZE, "cpu")])
  | Except.error e =>
      (StartupOutcome.exited
        ["Error loading Whisper model: " ++ e,
         "Please ensure you have an internet connection for download (if not cached) and sufficient memory."],
       [(WHISPER_MODEL_SIZE, "cpu")])

/-- The module-level mutable bindings of the script that `transcribe` can
see: only the global `model`. -/
structure GlobalState where
  model : Model
deriving DecidableEq

/-- `transcribe` embedded in explicit-global-state style: the global store is
threaded through the body statement by statement.  The body of the source
contains no assignment to `model` (and no `global` declaration), so every
branch passes the store through unchanged; this definition makes that
explicit so it can be stated as a theorem against `transcribe`. -/
def transcribeSt (env : WhisperEnv) (g : GlobalState) (audio_filepath : Option String) :
    (Except String String × List Event) × GlobalState :=
  match audio_filepath with
  | none => ((Except.ok "Please provide audio input.", []), g)
  | some fp =>
    match env.load_audio fp with
    | Except.error e =>
        ((Except.ok ("Error processing audio file: " ++ e), [Event.loadAudio fp]), g)
    | Except.ok audio0 =>
      match env.pad_or_trim audio0 with
      | Except.error e =>
          ((Except.ok ("Error processing audio file: " ++ e),
            [Event.loadAudio fp, Event.padOrTrim audio0]), g)
      | Except.ok audio =>
        match env.log_mel_spectrogram audio g.model.device with
        | Except.error e =>
            ((Except.error e,
              [Event.loadAudio fp, Event.padOrTrim audio0, Event.logMel audio]), g)
        | Except.ok mel =>
          match env.detect_language g.model mel with
          | Except.error e =>
              ((Except.error e,
                [Event.loadAudio fp, Event.padOrTrim audio0, Event.logMel audio,
                 Event.detectLanguage mel]), g)
          | Except.ok (_, probs) =>
            match pyMax probs with
            | Except.error e =>
                ((Except.error e,
                  [Event.loadAudio fp, Event.padOrTrim audio0, Event.logMel audio,
                   Event.detectLanguage mel]), g)
            | Except.ok detected_language =>
              match env.decode g.model mel { fp16 := false, language := detected_language } with
              | Except.error e =>
                  ((Except.ok ("Error during decoding: " ++ e),
                    [Event.loadAudio fp, Event.padOrTrim audio0, Event.logMel audio,
                     Event.detectLanguage mel,
                     Event.decodeCall mel { fp16 := false, language := detected_language }]), g)
              | Except.ok result =>
                  ((Except.ok result.text,
                    [Event.loadAudio fp, Event.padOrTrim audio0, Event.logMel audio,
                     Event.detectLanguage mel,
                     Event.decodeCall mel { fp16 := false, language := detected_language }]), g)

/-- A model handle on the CPU device, as the script loads. -/
def mdlTest : Model := { device := "cpu" }

/-- A fully succeeding concrete library environment, for evaluating the
embedding at concrete inputs. -/
def envTest : WhisperEnv :=
  { load_audio := fun _ => Except.ok [0, 1]
    pad_or_trim := fun a => Except.ok (a ++ [2])
    log_mel_spectrogram := fun _ _ => Except.ok [3]
    detect_language := fun _ _ => Except.ok (7, [("en", mkRat 9 10), ("fr", mkRat 1 10)])
    decode := fun _ _ o => Except.ok { text := "hello " ++ o.language } }

/-- A concrete library environment whose spectrogram computation raises. -/
def envMelRaises : WhisperEnv :=
  { load_audio := fun _ => Except.ok [0, 1]
    pad_or_trim := fun a => Except.ok a
    log_mel_spectrogram := fun _ _ => Except.error "boom"
    detect_language := fun _ _ => Except.ok (7, [("en", 1)])
    decode := fun _ _ _ => Except.ok { text := "hi" } }

/-- `pyMaxAux` returns either the running best key or a key from the list,
and the value paired with the returned key dominates the running best value
and every value in the list. -/
theorem pyMaxAux_spec (bestK : String) (bestV : ℚ) (l : List (String × ℚ)) :
    ∃ p : ℚ, ((pyMaxAux bestK bestV l = bestK ∧ p = bestV) ∨ (pyMaxAux bestK bestV l, p) ∈ l) ∧
      bestV ≤ p ∧ ∀ q ∈ l, q.2 ≤ p := by
  induction l generalizing bestK bestV with
  | nil => exact ⟨bestV, Or.inl ⟨rfl, rfl⟩, le_refl _, by simp⟩
  | cons hd tl ih =>
    obtain ⟨k, v⟩ := hd
    by_cases h : bestV < v
    · obtain ⟨p, hmem, hle, hall⟩ := ih k v
      refine ⟨p, ?_, le_trans (le_of_lt h) hle, ?_⟩
      · rcases hmem with ⟨heq, hp⟩ | hin
        · exact Or.inr (by simp [pyMaxAux, h, heq, hp])
        · exact Or.inr (List.mem_cons_of_mem _ (by simpa [pyMaxAux, h] using hin))
      · intro q hq
        rcases List.mem_cons.mp hq with rfl | hq'
        · exact hle
        · exact hall q hq'
    · obtain ⟨p, hmem, hle, hall⟩ := ih bestK bestV
      refine ⟨p, ?_, hle, ?_⟩
      · rcases hmem with ⟨heq, hp⟩ | hin
        · exact Or.inl ⟨by simp [pyMaxAux, h, heq], hp⟩
        · exact Or.inr (List.mem_cons_of_mem _ (by simpa [pyMaxAux, h] using hin))
      · intro q hq
        rcases List.mem_cons.mp hq with rfl | hq'
        · exact le_trans (le_of_not_lt h) hle
        · exact hall q hq'

/-- On a nonempty probability list, `pyMax` succeeds and returns a key that
occurs in the list paired with a value no smaller than any value in it. -/
theorem pyMax_spec (probs : List (String × ℚ)) (hne : probs ≠ []) :
    ∃ lang p, pyMax probs = Except.ok lang ∧ (lang, p) ∈ probs ∧ ∀ q ∈ probs, q.2 ≤ p := by
  match probs, hne with
  | (k, v) :: rest, _ =>
    obtain ⟨p, hmem, hle, hall⟩ := pyMaxAux_spec k v rest
    refine ⟨pyMaxAux k v rest, p, rfl, ?_, ?_⟩
    · rcases hmem with ⟨heq, hp⟩ | hin
      · rw [heq, hp]; exact List.mem_cons_self _ _
      · exact List.mem_cons_of_mem _ hin
    · intro q hq
      rcases List.mem_cons.mp hq with rfl | hq'
      · exact hle
      · exact hall q hq'

/-- A concrete library environment whose `load_audio` raises. -/
def envLoadRaises : WhisperEnv :=
  { load_audio := fun _ => Except.error "corrupt"
    pad_or_trim := fun a => Except.ok a
    log_mel_spectrogram := fun _ _ => Except.ok [3]
    detect_language := fun _ _ => Except.ok (7, [("en", 1)])
    decode := fun _ _ o => Except.ok { text := "hello " ++ o.language } }

/-- A concrete library environment whose `decode` raises. -/
def envDecRaises : WhisperEnv :=
  { load_audio := fun _ => Except.ok [0, 1]
    pad_or_trim := fun a => Except.ok a
    log_mel_spectrogram := fun _ _ => Except.ok [3]
    detect_language := fun _ _ => Except.ok (7, [("en", 1)])
    decode := fun _ _ _ => Except.error "shape mismatch" }

/-- C4: when the audio filepath argument is absent (`None`), `transcribe`
returns the fixed message "Please provide audio input." and performs no
library call at all (empty call trace), so no audio processing happens. -/
theorem transcribe_none_returns_fixed_message (env : WhisperEnv) (m : Model) :
    transcribe env m none = (Except.ok "Please provide audio input.", []) := rfl

/-- C1 counterexample: an exception raised by the spectrogram computation is
NOT caught inside the handler: with a library whose
`log_mel_spectrogram` raises "boom", `transcribe` propagates the exception
to its caller instead of returning an error string. -/
theorem transcribe_spectrogram_exception_propagates :
    (transcribe envMelRaises mdlTest (some "a.wav")).1 = Except.error "boom" := rfl

/-- C1 (amended): exceptions raised by `load_audio` or `pad_or_trim` are
caught and turned into the returned string "Error processing audio file: e",
and exceptions raised by `decode` are caught and turned into the distinct
returned string "Error during decoding: e"; exceptions raised by the
spectrogram computation or by language detection are not caught and
propagate to the caller. -/
theorem transcribe_exception_handling_per_step (env : WhisperEnv) (m : Model) (fp : String)
    (e : String) (a0 a1 : AudioBuf) (mel : MelSpec) (tok : Nat)
    (probs : List (String × ℚ)) (lang : String) :
    (env.load_audio fp = Except.error e →
        (transcribe env m (some fp)).1 = Except.ok ("Error processing audio file: " ++ e)) ∧
    (env.load_audio fp = Except.ok a0 → env.pad_or_trim a0 = Except.error e →
        (transcribe env m (some fp)).1 = Except.ok ("Error processing audio file: " ++ e)) ∧
    (env.load_audio fp = Except.ok a0 → env.pad_or_trim a0 = Except.ok a1 →
      env.log_mel_spectrogram a1 m.device = Except.error e →
        (transcribe env m (some fp)).1 = Except.error e) ∧
    (env.load_audio fp = Except.ok a0 → env.pad_or_trim a0 = Except.ok a1 →
      env.log_mel_spectrogram a1 m.device = Except.ok mel →
      env.detect_language m mel = Except.error e →
        (transcribe env m (some fp)).1 = Except.error e) ∧
    (env.load_audio fp = Except.ok a0 → env.pad_or_trim a0 = Except.ok a1 →
      env.log_mel_spectrogram a1 m.device = Except.ok mel →
      env.detect_language m mel = Except.ok (tok, probs) →
      pyMax probs = Except.ok lang →
      env.decode m mel { fp16 := false, language := lang } = Except.error e →
        (transcribe env m (some fp)).1 = Except.ok ("Error during decoding: " ++ e)) := by
  refine ⟨?_, ?_, ?_, ?_, ?_⟩
  · intro h1
    simp [transcribe, h1]
  · intro h1 h2
    simp [transcribe, h1, h2]
  · intro h1 h2 h3
    simp [transcribe, h1, h2, h3]
  · intro h1 h2 h3 h4
    simp [transcribe, h1, h2, h3, h4]
  · intro h1 h2 h3 h4 h5 h6
    simp [transcribe, h1, h2, h3, h4, h5, h6]

/-- Witness for the amended C1 theorem: a concrete run whose `decode` raises
"shape mismatch" returns the caught error string. -/
theorem transcribe_exception_handling_per_step_witness :
    (transcribe envDecRaises mdlTest (some "clip.wav")).1 =
      Except.ok ("Error during decoding: " ++ "shape mismatch") :=
  (transcribe_exception_handling_per_step envDecRaises mdlTest "clip.wav" "shape mismatch"
      [0, 1] [0, 1] [3] 7 [("en", 1)] "en").2.2.2.2 rfl rfl rfl rfl rfl rfl

/-- C3: whenever audio loading raises, or loading succeeds and pad/trim
raises, `transcribe` returns (does not raise) a string containing
"Error processing audio file". -/
theorem transcribe_audio_error_contains (env : WhisperEnv) (m : Model) (fp e : String)
    (h : env.load_audio fp = Except.error e ∨
      ∃ a0, env.load_audio fp = Except.ok a0 ∧ env.pad_or_trim a0 = Except.error e) :
    ∃ t, (transcribe env m (some fp)).1 = Except.ok ("Error processing audio file" ++ t) := by
  have hsplit : ("Error processing audio file: " ++ e) =
      "Error processing audio file" ++ (": " ++ e) := by
    rw [← String.append_assoc]
    congr 1
  rcases h with h1 | ⟨a0, h1, h2⟩
  · exact ⟨": " ++ e, by rw [← hsplit]; simp [transcribe, h1]⟩
  · exact ⟨": " ++ e, by rw [← hsplit]; simp [transcribe, h1, h2]⟩

/-- Witness for C3: a concrete run whose `load_audio` raises "corrupt". -/
theorem transcribe_audio_error_contains_witness :
    ∃ t, (transcribe envLoadRaises mdlTest (some "bad.wav")).1 =
      Except.ok ("Error processing audio file" ++ t) :=
  transcribe_audio_error_contains envLoadRaises mdlTest "bad.wav" "corrupt" (Or.inl rfl)

/-- C2: in every invocation that reaches language detection (loading,
pad/trim, spectrogram and detection all succeed, with a nonempty
probability mapping), the language placed into the options of the decode
call is a key of the probability mapping whose probability is maximal. -/
theorem transcribe_decodes_argmax_language (env : WhisperEnv) (m : Model) (fp : String)
    (a0 a1 : AudioBuf) (mel : MelSpec) (tok : Nat) (probs : List (String × ℚ))
    (hload : env.load_audio fp = Except.ok a0)
    (hpad : env.pad_or_trim a0 = Except.ok a1)
    (hmel : env.log_mel_spectrogram a1 m.device = Except.ok mel)
    (hdet : env.detect_language m mel = Except.ok (tok, probs))
    (hne : probs ≠ []) :
    ∃ lang p,
      pyMax probs = Except.ok lang ∧ (lang, p) ∈ probs ∧ (∀ q ∈ probs, q.2 ≤ p) ∧
      (transcribe env m (some fp)).2 =
        [Event.loadAudio fp, Event.padOrTrim a0, Event.logMel a1,
         Event.detectLanguage mel,
         Event.decodeCall mel { fp16 := false, language := lang }] := by
  obtain ⟨lang, p, hmax, hmem, hall⟩ := pyMax_spec probs hne
  refine ⟨lang, p, hmax, hmem, hall, ?_⟩
  cases hdec : env.decode m mel { fp16 := false, language := lang } <;>
    simp [transcribe, hload, hpad, hmel, hdet, hmax, hdec]

/-- Witness for C2 on a concrete environment whose detection returns
en ↦ 9/10, fr ↦ 1/10. -/
theorem transcribe_decodes_argmax_language_witness :
    ∃ lang p,
      pyMax [("en", mkRat 9 10), ("fr", mkRat 1 10)] = Except.ok lang ∧
      (lang, p) ∈ [("en", mkRat 9 10), ("fr", mkRat 1 10)] ∧
      (∀ q ∈ [("en", mkRat 9 10), ("fr", mkRat 1 10)], q.2 ≤ p) ∧
      (transcribe envTest mdlTest (some "clip.wav")).2 =
        [Event.loadAudio "clip.wav", Event.padOrTrim [0, 1], Event.logMel [0, 1, 2],
         Event.detectLanguage [3],
         Event.decodeCall [3] { fp16 := false, language := lang }] :=
  transcribe_decodes_argmax_language envTest mdlTest "clip.wav" [0, 1] [0, 1, 2] [3] 7
    [("en", mkRat 9 10), ("fr", mkRat 1 10)] rfl rfl rfl rfl (by decide)

/-- C5: on the success path, `transcribe` performs exactly the five library
calls load audio, pad or trim, log-Mel spectrogram, language detection and
decode, in that order and each on the previous call's output, and as its
sixth step returns the decoded text. -/
theorem transcribe_success_six_step_pipeline (env : WhisperEnv) (m : Model) (fp : String)
    (a0 a1 : AudioBuf) (mel : MelSpec) (tok : Nat) (probs : List (String × ℚ))
    (lang : String) (res : DecodingResult)
    (hload : env.load_audio fp = Except.ok a0)
    (hpad : env.pad_or_trim a0 = Except.ok a1)
    (hmel : env.log_mel_spectrogram a1 m.device = Except.ok mel)
    (hdet : env.detect_language m mel = Except.ok (tok, probs))
    (hmax : pyMax probs = Except.ok lang)
    (hdec : env.decode m mel { fp16 := false, language := lang } = Except.ok res) :
    transcribe env m (some fp) =
      (Except.ok res.text,
       [Event.loadAudio fp, Event.padOrTrim a0, Event.logMel a1,
        Event.detectLanguage mel,
        Event.decodeCall mel { fp16 := false, language := lang }]) := by
  simp [transcribe, hload, hpad, hmel, hdet, hmax, hdec]

/-- Witness for C5: the concrete all-succeeding environment runs the five
calls in order and returns the decoded text. -/
theorem transcribe_success_six_step_pipeline_witness :
    transcribe envTest mdlTest (some "clip.wav") =
      (Except.ok "hello en",
       [Event.loadAudio "clip.wav", Event.padOrTrim [0, 1], Event.logMel [0, 1, 2],
        Event.detectLanguage [3],
        Event.decodeCall [3] { fp16 := false, language := "en" }]) :=
  transcribe_success_six_step_pipeline envTest mdlTest "clip.wav" [0, 1] [0, 1, 2] [3] 7
    [("en", mkRat 9 10), ("fr", mkRat 1 10)] "en" { text := "hello en" } rfl rfl rfl rfl rfl rfl

/-- C6: in a run that reaches decoding, every decode call in the trace uses
options with `fp16 = false` and the detected language as hint, and when the
decode succeeds the value returned is the `text` field of its result. -/
theorem transcribe_decode_options_and_text (env : WhisperEnv) (m : Model) (fp : String)
    (a0 a1 : AudioBuf) (mel : MelSpec) (tok : Nat) (probs : List (String × ℚ))
    (lang : String)
    (hload : env.load_audio fp = Except.ok a0)
    (hpad : env.pad_or_trim a0 = Except.ok a1)
    (hmel : env.log_mel_spectrogram a1 m.device = Except.ok mel)
    (hdet : env.detect_language m mel = Except.ok (tok, probs))
    (hmax : pyMax probs = Except.ok lang) :
    (∀ ms o, Event.decodeCall ms o ∈ (transcribe env m (some fp)).2 →
        o.fp16 = false ∧ o.language = lang) ∧
    (∀ res, env.decode m mel { fp16 := false, language := lang } = Except.ok res →
        (transcribe env m (some fp)).1 = Except.ok res.text) := by
  constructor
  · intro ms o hmem
    cases hdec : env.decode m mel { fp16 := false, language := lang } with
    | error e =>
      simp [transcribe, hload, hpad, hmel, hdet, hmax, hdec] at hmem
      obtain ⟨-, rfl⟩ := hmem
      exact ⟨rfl, rfl⟩
    | ok res =>
      simp [transcribe, hload, hpad, hmel, hdet, hmax, hdec] at hmem
      obtain ⟨-, rfl⟩ := hmem
      exact ⟨rfl, rfl⟩
  · intro res hdec
    simp [transcribe, hload, hpad, hmel, hdet, hmax, hdec]

/-- Witness for C6: on the concrete all-succeeding environment, the options
of the decode call that happened have `fp16 = false` and language "en", and
the returned value is the decoded text. -/
theorem transcribe_decode_options_and_text_witness :
    (DecodingOptions.fp16 { fp16 := false, language := "en" } = false ∧
     DecodingOptions.language { fp16 := false, language := "en" } = "en") ∧
    (transcribe envTest mdlTest (some "clip.wav")).1 = Except.ok "hello en" :=
  ⟨(transcribe_decode_options_and_text envTest mdlTest "clip.wav" [0, 1] [0, 1, 2] [3] 7
      [("en", mkRat 9 10), ("fr", mkRat 1 10)] "en" rfl rfl rfl rfl rfl).1
      [3] { fp16 := false, language := "en" } (by decide),
   (transcribe_decode_options_and_text envTest mdlTest "clip.wav" [0, 1] [0, 1, 2] [3] 7
      [("en", mkRat 9 10), ("fr", mkRat 1 10)] "en" rfl rfl rfl rfl rfl).2
      { text := "hello en" } rfl⟩

/-- C7: when `whisper.load_model` raises at startup, the process logs the
two error lines and exits; the loader was invoked exactly once, with the
configured size and the cpu device (no retry, no fallback size), and no
model is available for serving requests afterwards. -/
theorem startup_load_failure_fatal (load_model : String → String → Except String Model)
    (e : String) (h : load_model WHISPER_MODEL_SIZE "cpu" = Except.error e) :
    (startup load_model).1 =
      StartupOutcome.exited
        ["Error loading Whisper model: " ++ e,
         "Please ensure you have an internet connection for download (if not cached) and sufficient memory."] ∧
    (startup load_model).2 = [(WHISPER_MODEL_SIZE, "cpu")] ∧
    servedModel (startup load_model).1 = none := by
  refine ⟨?_, ?_, ?_⟩ <;> simp [startup, h, servedModel]

/-- Witness for C7: a loader that always raises "no internet". -/
theorem startup_load_failure_fatal_witness :
    (startup fun _ _ => Except.error "no internet").1 =
      StartupOutcome.exited
        ["Error loading Whisper model: " ++ "no internet",
         "Please ensure you have an internet connection for download (if not cached) and sufficient memory."] ∧
    (startup fun _ _ => Except.error "no internet").2 = [(WHISPER_MODEL_SIZE, "cpu")] ∧
    servedModel (startup fun _ _ => Except.error "no internet").1 = none :=
  startup_load_failure_fatal (fun _ _ => Except.error "no internet") "no internet" rfl

/-- C8: a call of `transcribe`, embedded with the module-level global store
threaded explicitly, leaves the global `model` binding unchanged and
computes the same result as the pure `transcribe` reading that binding. -/
theorem transcribe_preserves_model_state (env : WhisperEnv) (g : GlobalState)
    (audio_filepath : Option String) :
    (transcribeSt env g audio_filepath).2 = g ∧
      (transcribeSt env g audio_filepath).1 = transcribe env g.model audio_filepath := by
  cases audio_filepath with
  | none => exact ⟨rfl, rfl⟩
  | some fp =>
    cases hl : env.load_audio fp with
    | error e => constructor <;> simp [transcribeSt, transcribe, hl]
    | ok audio0 =>
      cases hp : env.pad_or_trim audio0 with
      | error e => constructor <;> simp [transcribeSt, transcribe, hl, hp]
      | ok audio1 =>
        cases hm : env.log_mel_spectrogram audio1 g.model.device with
        | error e => constructor <;> simp [transcribeSt, transcribe, hl, hp, hm]
        | ok mel =>
          cases hd : env.detect_language g.model mel with
          | error e => constructor <;> simp [transcribeSt, transcribe, hl, hp, hm, hd]
          | ok pr =>
            obtain ⟨tok, probs⟩ := pr
            cases hx : pyMax probs with
            | error e => constructor <;> simp [transcribeSt, transcribe, hl, hp, hm, hd, hx]
            | ok lang =>
              cases hdec : env.decode g.model mel { fp16 := false, language := lang } with
              | error e =>
                constructor <;> simp [transcribeSt, transcribe, hl, hp, hm, hd, hx, hdec]
              | ok res =>
                constructor <;> simp [transcribeSt, transcribe, hl, hp, hm, hd, hx, hdec]

/-- C10: the result string of `transcribe` depends only on the audio data
the library loads, the model handle and the (fixed) decoding options: two
invocations against the same loaded model whose filepaths hold the same
audio contents (their `load_audio` results coincide) return the same
value. -/
theorem transcribe_result_depends_only_on_audio (env : WhisperEnv) (m : Model)
    (fp fp' : String) (h : env.load_audio fp = env.load_audio fp') :
    (transcribe env m (some fp)).1 = (transcribe env m (some fp')).1 := by
  cases hl : env.load_audio fp' with
  | error e =>
    have hl2 : env.load_audio fp = Except.error e := h.trans hl
    simp [transcribe, hl, hl2]
  | ok audio0 =>
    have hl2 : env.load_audio fp = Except.ok audio0 := h.trans hl
    cases hp : env.pad_or_trim audio0 with
    | error e => simp [transcribe, hl, hl2, hp]
    | ok audio1 =>
      cases hm : env.log_mel_spectrogram audio1 m.device with
      | error e => simp [transcribe, hl, hl2, hp, hm]
      | ok mel =>
        cases hd : env.detect_language m mel with
        | error e => simp [transcribe, hl, hl2, hp, hm, hd]
        | ok pr =>
          obtain ⟨tok, probs⟩ := pr
          cases hx : pyMax probs with
          | error e => simp [transcribe, hl, hl2, hp, hm, hd, hx]
          | ok lang =>
            cases hdec : env.decode m mel { fp16 := false, language := lang } with
            | error e => simp [transcribe, hl, hl2, hp, hm, hd, hx, hdec]
            | ok res => simp [transcribe, hl, hl2, hp, hm, hd, hx, hdec]

/-- Witness for C10: the concrete environment loads the same samples for
two different filepaths, and the two runs return the same value. -/
theorem transcribe_result_depends_only_on_audio_witness :
    (transcribe envTest mdlTest (some "a.wav")).1 =
      (transcribe envTest mdlTest (some "b.wav")).1 :=
  transcribe_result_depends_only_on_audio envTest mdlTest "a.wav" "b.wav" rfl
